import Mathlib

/-!
Verification of `ts/torch_handler/base_handler.py` (class `BaseHandler`).

The Python class is shallowly embedded: the mutable object becomes an explicit
`BaseHandler` state record, each method becomes a Lean function that returns an
`Except PyError _` together with the (possibly partially mutated) state, and
every external collaborator (filesystem, torch, importlib, the compiled C++
binding module) is a field of an `Env` record of pure functions, so that the
handler's own control flow — the part the spec is about — is fully explicit.
Opaque Python objects (tensors, modules, classes, model handles) are modelled
as natural numbers: the handler never inspects them, it only routes them.
-/

namespace TorchServe

/-- Opaque Python value (tensor, model object, state_dict, ...). -/
abbrev Val := Nat

/-- Opaque imported Python module. -/
abbrev PyModule := Nat

/-- Opaque Python class object. -/
abbrev PyClass := Nat

/-- Opaque compiled C++ binding module (result of `torch.utils.cpp_extension.load`). -/
abbrev CppMod := Nat

/-- A parsed `index_to_name.json` label mapping. -/
abbrev LabelMapping := List (String × String)

/-- Errors raised by `base_handler.py` itself, plus `raised` for exceptions
propagating out of external calls (torch, importlib, the binding module). -/
inductive PyError where
  /-- `RuntimeError("Missing the model.pt file")` -/
  | missingArtifact : PyError
  /-- `RuntimeError("Missing the model.py file")` -/
  | missingClassDefFile : PyError
  /-- `ValueError("Expected only one class as model definition. ...")` -/
  | ambiguousModelDefinition : PyError
  /-- `Exception("Eager models are not supported using CPP API")` -/
  | unsupportedCombination : PyError
  /-- `Exception("Only Python and CPP APIs are supported.")` -/
  | unsupportedExecutionAPI : PyError
  /-- `Exception("Keyword arguments are not supported by CPP API. ...")` -/
  | unsupportedArguments : PyError
  /-- An exception raised inside an external collaborator call. -/
  | raised : String → PyError
  deriving DecidableEq, Repr

/-- `context.system_properties`: the keys `base_handler.py` reads. -/
structure SystemProperties where
  gpu_id : Nat
  model_dir : String
  torch_api_type : String
  deriving DecidableEq, Repr

/-- `context.manifest['model']`: the keys `base_handler.py` reads.
`modelFile` is the result of `.get('modelFile', '')`, so absence is `""`. -/
structure ManifestModel where
  serializedFile : String
  modelFile : String
  deriving DecidableEq, Repr

/-- `context.manifest`. -/
structure Manifest where
  model : ManifestModel
  deriving DecidableEq, Repr

/-- The deployment context handed to `initialize` and `handle`. -/
structure Context where
  system_properties : SystemProperties
  manifest : Manifest
  deriving DecidableEq, Repr

/-- The mutable attribute state of a `BaseHandler` object. -/
structure BaseHandler where
  model : Option Val
  mapping : Option LabelMapping
  device : Option String
  initialized : Bool
  context : Option Context
  manifest : Option Manifest
  map_location : Option String
  torch_cpp_python_module : Option CppMod
  torch_api_type : String
  deriving DecidableEq, Repr

/-- `BaseHandler.__init__`. -/
def newHandler : BaseHandler :=
  { model := none, mapping := none, device := none, initialized := false,
    context := none, manifest := none, map_location := none,
    torch_cpp_python_module := none, torch_api_type := "python" }

/-- The external collaborators, as pure functions. Fallible calls return
`Except String _`, the `String` being the propagated Python exception text. -/
structure Env where
  /-- `torch.cuda.is_available()` -/
  cuda_available : Bool
  /-- `os.path.isfile` -/
  isfile : String → Bool
  /-- `torch.jit.load(path, map_location=...)` -/
  jit_load : String → Option String → Except String Val
  /-- `torch.load(path, map_location=...)` -/
  torch_load : String → Option String → Except String Val
  /-- `importlib.import_module(name)` -/
  py_import : String → Except String PyModule
  /-- Modelled from the spec: `list_classes_from_module` lives in
  `ts/utils/util.py`, which is not under `src/`; per the spec it enumerates the
  concrete classes defined directly in the given module. -/
  list_classes : PyModule → List PyClass
  /-- `model_class()` — no-argument instantiation of a discovered class. -/
  instantiate : PyClass → Except String Val
  /-- `model.load_state_dict(state_dict)`; the result is the populated model.
  A key/shape mismatch surfaces as the propagated exception. -/
  load_state_dict : Val → Val → Except String Val
  /-- `model.to(device)` -/
  model_to : Val → String → Val
  /-- `model.eval()` -/
  model_eval : Val → Val
  /-- `torch.utils.cpp_extension.load(name=..., sources=[...])` compiling the
  bundled `torch_cpp_python_bindings.cpp` found next to the handler's own file. -/
  cpp_load : Except String CppMod
  /-- `module.load_model(model_pt_path, map_location, device_str)` on the binding. -/
  cpp_load_model : CppMod → String → String → String → Except String Val
  /-- `module.run_model(model, params)` on the binding; the model handle is
  forwarded as-is (Python would pass `None` through unchecked). -/
  run_model : CppMod → Option Val → List Val → Except String Val
  /-- `torch.as_tensor(data, device=...)`; `device=None` is legal. -/
  as_tensor : Val → Option String → Val
  /-- `tensor.to(device)`; `.to(None)` is a no-op in torch, so this is total. -/
  tensor_to : Val → Option String → Val
  /-- `self.model(input, *args, **kwargs)` on a Python-API model. -/
  call_model : Val → Val → List Val → List (String × Val) → Except String Val
  /-- `tensor.tolist()` -/
  tolist : Val → Val
  /-- Parsing of an existing `index_to_name.json`. -/
  parse_mapping : String → LabelMapping

/-- `os.path.join` for the relative-second-component case used here. -/
def pathJoin (a b : String) : String := a ++ "/" ++ b

/-- Lift a propagated external exception into `PyError`. -/
def wrapRaised : Except String Val → Except PyError Val
  | .error e => .error (.raised e)
  | .ok v => .ok v

/-- `'cuda' if torch.cuda.is_available() else 'cpu'` -/
def mapLocationOf (env : Env) : String :=
  if env.cuda_available then "cuda" else "cpu"

/-- `torch.device(map_location + ":" + str(gpu_id) if cuda else map_location)`,
kept as its string form (`str(device)` is what the code later passes on). -/
def deviceOf (env : Env) (gpu_id : Nat) : String :=
  if env.cuda_available then mapLocationOf env ++ ":" ++ toString gpu_id
  else mapLocationOf env

/-- Modelled from the spec: `load_label_mapping` lives in `ts/utils/util.py`,
which is not under `src/`. Per the spec it unconditionally attempts to load the
label-mapping file; absence of the file is non-fatal and leaves the mapping
absent/empty rather than raising. -/
def load_label_mapping (env : Env) (path : String) : Option LabelMapping :=
  if env.isfile path then some (env.parse_mapping path) else none

/-- `BaseHandler._load_torchscript_model`. -/
def load_torchscript_model (env : Env) (h : BaseHandler) (model_pt_path : String) :
    Except PyError Val :=
  wrapRaised (env.jit_load model_pt_path h.map_location)

/-- `BaseHandler._load_pickled_model`. -/
def load_pickled_model (env : Env) (h : BaseHandler)
    (model_dir model_file model_pt_path : String) : Except PyError Val :=
  let model_def_path := pathJoin model_dir model_file
  if env.isfile model_def_path = false then
    .error .missingClassDefFile
  else
    match env.py_import ((model_file.splitOn ".").headD "") with
    | .error e => .error (.raised e)
    | .ok module =>
      match env.list_classes module with
      | [model_class] =>
        match env.torch_load model_pt_path h.map_location with
        | .error e => .error (.raised e)
        | .ok state_dict =>
          match env.instantiate model_class with
          | .error e => .error (.raised e)
          | .ok model => wrapRaised (env.load_state_dict model state_dict)
      | _ => .error .ambiguousModelDefinition

/-- The tail of `BaseHandler.initialize` after a model was stored: load the
label mapping from the fixed path, then set `initialized = True`. -/
def finishInit (env : Env) (h : BaseHandler) (model_dir : String) :
    Except PyError Unit × BaseHandler :=
  let mapping_file_path := pathJoin model_dir "index_to_name.json"
  let h1 := { h with mapping := load_label_mapping env mapping_file_path }
  (.ok (), { h1 with initialized := true })

/-- `BaseHandler.initialize(context)`. Returns the outcome together with the
final attribute state; attribute assignments made before a raise persist,
exactly as in Python. -/
def initializeHandler (env : Env) (h0 : BaseHandler) (ctx : Context) :
    Except PyError Unit × BaseHandler :=
  let properties := ctx.system_properties
  let map_location := mapLocationOf env
  let device := deviceOf env properties.gpu_id
  let h1 := { h0 with map_location := some map_location, device := some device,
                      manifest := some ctx.manifest }
  let model_dir := properties.model_dir
  let serialized_file := ctx.manifest.model.serializedFile
  let model_pt_path := pathJoin model_dir serialized_file
  if env.isfile model_pt_path = false then
    (.error .missingArtifact, h1)
  else
    let model_file := ctx.manifest.model.modelFile
    let h2 := { h1 with torch_api_type := properties.torch_api_type }
    if h2.torch_api_type = "python" then
      match (if model_file ≠ "" then
               load_pickled_model env h2 model_dir model_file model_pt_path
             else
               load_torchscript_model env h2 model_pt_path) with
      | .error e => (.error e, h2)
      | .ok m =>
        let h3 := { h2 with model := some (env.model_eval (env.model_to m device)) }
        finishInit env h3 model_dir
    else if h2.torch_api_type = "cpp" then
      if model_file ≠ "" then
        (.error .unsupportedCombination, h2)
      else
        match env.cpp_load with
        | .error e => (.error (.raised e), h2)
        | .ok cm =>
          let h3 := { h2 with torch_cpp_python_module := some cm }
          match env.cpp_load_model cm model_pt_path map_location device with
          | .error e => (.error (.raised e), h3)
          | .ok m => finishInit env { h3 with model := some m } model_dir
    else
      (.error .unsupportedExecutionAPI, h2)

/-- `BaseHandler.preprocess`. -/
def preprocess (env : Env) (h : BaseHandler) (data : Val) : Val :=
  env.as_tensor data h.device

/-- `BaseHandler.inference(data, *args, **kwargs)`. The `torch.no_grad()`
scope has no observable effect in this model. -/
def inference (env : Env) (h : BaseHandler) (data : Val) (args : List Val)
    (kwargs : List (String × Val)) : Except PyError Val :=
  let marshalled := env.tensor_to data h.device
  if h.torch_api_type = "python" then
    match h.model with
    | none => .error (.raised "TypeError: NoneType object is not callable")
    | some m => wrapRaised (env.call_model m marshalled args kwargs)
  else
    if kwargs.length ≠ 0 then
      .error .unsupportedArguments
    else
      match h.torch_cpp_python_module with
      | none => .error (.raised "AttributeError: NoneType has no attribute")
      | some cm => wrapRaised (env.run_model cm h.model (marshalled :: args))

/-- `BaseHandler.postprocess`. -/
def postprocess (env : Env) (_h : BaseHandler) (data : Val) : Val :=
  env.tolist data

/-- `BaseHandler.handle(data, context)`. Returns the outcome together with the
final attribute state. -/
def handle (env : Env) (h0 : BaseHandler) (data : Val) (ctx : Context) :
    Except PyError Val × BaseHandler :=
  let h := { h0 with context := some ctx }
  let data1 := preprocess env h data
  match inference env h data1 [] [] with
  | .error e => (.error e, h)
  | .ok data2 => (.ok (postprocess env h data2), h)

/-! Concrete fixtures used to evaluate the model on closed inputs. -/

/-- A concrete environment in which no file exists on disk. -/
def noFileEnv : Env :=
  { cuda_available := false,
    isfile := fun _ => false,
    jit_load := fun _ _ => .ok 0,
    torch_load := fun _ _ => .ok 0,
    py_import := fun _ => .ok 0,
    list_classes := fun _ => [0],
    instantiate := fun _ => .ok 0,
    load_state_dict := fun m _ => .ok m,
    model_to := fun m _ => m,
    model_eval := fun m => m,
    cpp_load := .ok 0,
    cpp_load_model := fun _ _ _ _ => .ok 0,
    run_model := fun _ _ _ => .ok 0,
    as_tensor := fun v _ => v,
    tensor_to := fun v _ => v,
    call_model := fun _ v _ _ => .ok v,
    tolist := fun v => v,
    parse_mapping := fun _ => [] }

/-- A concrete environment in which every path exists as a file. -/
def allFileEnv : Env := { noFileEnv with isfile := fun _ => true }

/-- A concrete environment in which only `/m/model.pt` exists. -/
def ptOnlyEnv : Env := { noFileEnv with isfile := fun p => p == "/m/model.pt" }

/-- Context: Python API, TorchScript artifact, no model file. -/
def ctxNativeScript : Context :=
  { system_properties := { gpu_id := 0, model_dir := "/m", torch_api_type := "python" },
    manifest := { model := { serializedFile := "model.pt", modelFile := "" } } }

/-- Context: Python API, eager model (`modelFile` named). -/
def ctxNativeEager : Context :=
  { system_properties := { gpu_id := 0, model_dir := "/m", torch_api_type := "python" },
    manifest := { model := { serializedFile := "model.pt", modelFile := "model.py" } } }

/-- Context: CPP API with a `modelFile` named (the unsupported combination). -/
def ctxCppEager : Context :=
  { system_properties := { gpu_id := 0, model_dir := "/m", torch_api_type := "cpp" },
    manifest := { model := { serializedFile := "model.pt", modelFile := "model.py" } } }

/-- Context: an execution-API selector that is neither `python` nor `cpp`. -/
def ctxJavaApi : Context :=
  { system_properties := { gpu_id := 0, model_dir := "/m", torch_api_type := "java" },
    manifest := { model := { serializedFile := "model.pt", modelFile := "" } } }

/-- A handler as it stands after a successful CPP-API initialization. -/
def cppHandler : BaseHandler :=
  { newHandler with torch_api_type := "cpp", device := some "cpu",
                    map_location := some "cpu", torch_cpp_python_module := some 0,
                    model := some 7, initialized := true }

/-- A handler as it stands after a successful Python-API initialization. -/
def pyHandler : BaseHandler :=
  { newHandler with torch_api_type := "python", device := some "cpu",
                    map_location := some "cpu", model := some 1, initialized := true }

/-! The claims. -/

/-- C1: for every call `handle(data, context)`, the returned value equals
`postprocess(inference(preprocess(data)))` computed strictly in that order,
with no branching and no other transformation applied to the result (the
handler state seen by the three stages is the caller's state with the request
context stored). -/
theorem c1_handle_pipeline (env : Env) (h : BaseHandler) (data : Val) (ctx : Context) :
    (handle env h data ctx).1 =
      (inference env { h with context := some ctx }
          (preprocess env { h with context := some ctx } data) [] []).map
        (postprocess env { h with context := some ctx }) := by
  unfold handle
  cases hi : inference env { h with context := some ctx }
      (preprocess env { h with context := some ctx } data) [] [] <;>
    simp [hi, Except.map]

/-- C8 counterexample: the request context IS retained in handler state after
`handle` returns — `self.context` is never cleared. On a fresh handler whose
stored context is `none`, after one `handle` call the stored context is the
request's context, so the claim "not retained after the call returns" fails. -/
theorem c8_counterexample :
    pyHandler.context = none ∧
    (handle allFileEnv pyHandler 3 ctxNativeScript).2.context = some ctxNativeScript := by
  constructor <;> rfl

/-- C8 (amended): `handle` stores the current request's context in handler
state before running the three stages, so preprocess/postprocess overrides may
inspect it; no other field changes, but the stored context remains in handler
state after the call returns (until the next call overwrites it). -/
theorem c8_context_retained (env : Env) (h : BaseHandler) (data : Val) (ctx : Context) :
    (handle env h data ctx).2 = { h with context := some ctx } := by
  unfold handle
  cases hi : inference env { h with context := some ctx }
      (preprocess env { h with context := some ctx } data) [] [] <;>
    simp [hi]

/-- `inference` with an empty keyword-argument list never raises the
`unsupportedArguments` error, for any handler state or environment. -/
theorem inference_no_kwargs_ne_unsupportedArguments (env : Env) (h : BaseHandler)
    (data : Val) (args : List Val) :
    inference env h data args [] ≠ .error .unsupportedArguments := by
  unfold inference
  split
  · match h.model with
    | none => simp
    | some m =>
      simp only []
      cases henv : env.call_model m (env.tensor_to data h.device) args [] <;>
        simp [wrapRaised, henv]
  · simp only [List.length_nil]
    match h.torch_cpp_python_module with
    | none => simp
    | some cm =>
      simp only []
      cases henv : env.run_model cm h.model (env.tensor_to data h.device :: args) <;>
        simp [wrapRaised, henv]

/-- C10: `handle` always invokes `inference` with the preprocessed input alone
and no positional or keyword extra arguments, so for every request entering
through `handle` the `unsupportedArguments` branch of the CPP (foreign-binding)
backend is unreachable. -/
theorem c10_no_unsupported_arguments_via_handle (env : Env) (h : BaseHandler)
    (data : Val) (ctx : Context) :
    (handle env h data ctx).1 ≠ .error .unsupportedArguments := by
  unfold handle
  cases hi : inference env { h with context := some ctx }
      (preprocess env { h with context := some ctx } data) [] [] with
  | error e =>
    simp only [hi]
    intro hcontra
    apply inference_no_kwargs_ne_unsupportedArguments env { h with context := some ctx }
      (preprocess env { h with context := some ctx } data) []
    rw [hi]
    simpa using hcontra
  | ok v => simp [hi]

/-- C2 counterexample: with `api_type = cpp` and a `modelFile` named, but the
serialized artifact absent from disk, `initialize` raises `MissingArtifact`
(the presence check runs first), not `UnsupportedCombination` — refuting the
"or even present on disk" part of the claim. -/
theorem c2_counterexample :
    (initializeHandler noFileEnv newHandler ctxCppEager).1 = .error .missingArtifact ∧
    (initializeHandler noFileEnv newHandler ctxCppEager).1 ≠ .error .unsupportedCombination := by
  constructor
  · rfl
  · show Except.error PyError.missingArtifact ≠ Except.error PyError.unsupportedCombination
    simp

/-- C2 (amended): for every context with `api_type = cpp` and a `modelFile`
named whose serialized artifact path exists on disk, `initialize` raises
`UnsupportedCombination` regardless of the artifact's content validity (the
environment's loaders are arbitrary and never consulted). -/
theorem c2_amended_unsupported_combination (env : Env) (h : BaseHandler) (ctx : Context)
    (hfile : env.isfile (pathJoin ctx.system_properties.model_dir
      ctx.manifest.model.serializedFile) = true)
    (happi : ctx.system_properties.torch_api_type = "cpp")
    (hmf : ctx.manifest.model.modelFile ≠ "") :
    (initializeHandler env h ctx).1 = .error .unsupportedCombination := by
  unfold initializeHandler
  simp [hfile, happi, hmf]

/-- C2 witness: the amended theorem applied at a concrete context and an
environment in which every file exists. -/
theorem c2_witness :
    (initializeHandler allFileEnv newHandler ctxCppEager).1 = .error .unsupportedCombination :=
  c2_amended_unsupported_combination allFileEnv newHandler ctxCppEager rfl rfl (by decide)

/-- C4 counterexample: when the serialized artifact is absent, `initialize`
does raise `MissingArtifact`, but handler state has already been mutated
before the check — `manifest` (likewise `device` and `map_location`) is
assigned first, refuting "before ... any mutation of handler state". -/
theorem c4_counterexample :
    (initializeHandler noFileEnv newHandler ctxNativeScript).1 = .error .missingArtifact ∧
    (initializeHandler noFileEnv newHandler ctxNativeScript).2.manifest ≠ newHandler.manifest := by
  constructor
  · rfl
  · show some ctxNativeScript.manifest ≠ none
    simp

/-- C4 (amended): `model_pt_path = model_dir / serializedFile` is checked
before the api_type validation and before any loading work: whenever the path
does not exist, `initialize` fails with `MissingArtifact` for every api_type
value; however, `map_location`, `device` and `manifest` have already been
assigned by then (and they are the only fields mutated). -/
theorem c4_amended_missing_artifact (env : Env) (h : BaseHandler) (ctx : Context)
    (hfile : env.isfile (pathJoin ctx.system_properties.model_dir
      ctx.manifest.model.serializedFile) = false) :
    (initializeHandler env h ctx).1 = .error .missingArtifact ∧
    (initializeHandler env h ctx).2 =
      { h with map_location := some (mapLocationOf env),
               device := some (deviceOf env ctx.system_properties.gpu_id),
               manifest := some ctx.manifest } := by
  unfold initializeHandler
  simp [hfile]

/-- C4 witness: the amended theorem applied at a concrete context whose
api_type is not even a supported value — `MissingArtifact` still wins. -/
theorem c4_witness :
    (initializeHandler noFileEnv newHandler ctxJavaApi).1 = .error .missingArtifact ∧
    (initializeHandler noFileEnv newHandler ctxJavaApi).2 =
      { newHandler with map_location := some (mapLocationOf noFileEnv),
                        device := some (deviceOf noFileEnv ctxJavaApi.system_properties.gpu_id),
                        manifest := some ctxJavaApi.manifest } :=
  c4_amended_missing_artifact noFileEnv newHandler ctxJavaApi rfl

/-- C6: starting from a handler with `initialized = false`, `initialize` ends
with `initialized = true` exactly when it returns successfully; on every error
path `initialized` stays false, so no partial-success state is exposed. -/
theorem c6_all_or_nothing (env : Env) (h : BaseHandler) (ctx : Context)
    (hinit : h.initialized = false) :
    ((initializeHandler env h ctx).2.initialized = true ↔
      (initializeHandler env h ctx).1 = .ok ()) := by
  simp only [initializeHandler]
  split_ifs <;> repeat' split
  all_goals simp_all [finishInit]

/-- C6 witness: the theorem applied to a fresh handler on a concrete failing
context (no file on disk). -/
theorem c6_witness :
    (initializeHandler noFileEnv newHandler ctxNativeScript).2.initialized = true ↔
      (initializeHandler noFileEnv newHandler ctxNativeScript).1 = .ok () :=
  c6_all_or_nothing noFileEnv newHandler ctxNativeScript rfl

/-- C7: when the serialized artifact exists (so `initialize` reaches the
api_type dispatch), every selector value other than `python` and `cpp` makes
`initialize` fail with `UnsupportedExecutionAPI`. -/
theorem c7_unsupported_api (env : Env) (h : BaseHandler) (ctx : Context)
    (hfile : env.isfile (pathJoin ctx.system_properties.model_dir
      ctx.manifest.model.serializedFile) = true)
    (hpy : ctx.system_properties.torch_api_type ≠ "python")
    (hcpp : ctx.system_properties.torch_api_type ≠ "cpp") :
    (initializeHandler env h ctx).1 = .error .unsupportedExecutionAPI := by
  unfold initializeHandler
  simp [hfile, hpy, hcpp]

/-- C7 witness: the theorem applied at `torch_api_type = "java"`. -/
theorem c7_witness :
    (initializeHandler allFileEnv newHandler ctxJavaApi).1 = .error .unsupportedExecutionAPI :=
  c7_unsupported_api allFileEnv newHandler ctxJavaApi rfl (by decide) (by decide)

/-- C3: on the CPP (foreign-binding) backend, `inference` raises
`unsupportedArguments` whenever any keyword extra argument is supplied; with
positional extras only, it invokes the binding module's `run_model` entry
point with the model handle and the ordered list `[input] + extras` (the input
having been moved to the handler's device first). -/
theorem c3_foreign_inference (env : Env) (h : BaseHandler) (data : Val) (args : List Val)
    (kwargs : List (String × Val)) (cm : CppMod)
    (happi : h.torch_api_type = "cpp")
    (hmod : h.torch_cpp_python_module = some cm) :
    (kwargs ≠ [] → inference env h data args kwargs = .error .unsupportedArguments) ∧
    inference env h data args [] =
      wrapRaised (env.run_model cm h.model (env.tensor_to data h.device :: args)) := by
  constructor
  · intro hk
    have hlen : kwargs.length ≠ 0 := fun h0 => hk (List.length_eq_zero.mp h0)
    simp [inference, happi, hmod, hlen]
  · simp [inference, happi, hmod]

/-- C3 witness: the theorem applied to a concrete CPP-initialized handler,
one keyword argument on the left, one positional extra on the right. -/
theorem c3_witness :
    ((([("k", 1)] : List (String × Val)) ≠ [] →
        inference allFileEnv cppHandler 5 [2] [("k", 1)] = .error .unsupportedArguments) ∧
      inference allFileEnv cppHandler 5 [2] [] =
        wrapRaised (allFileEnv.run_model 0 cppHandler.model
          (allFileEnv.tensor_to 5 cppHandler.device :: [2]))) :=
  c3_foreign_inference allFileEnv cppHandler 5 [2] [("k", 1)] 0 rfl rfl

/-- C5: for `api_type = python` with a `modelFile` named (present on disk and
importable), `initialize` raises `AmbiguousModelDefinition` whenever the
module defines zero or more than one concrete class, leaving `initialized`
false; when exactly one class exists, it is instantiated with no constructor
arguments, its parameter state is restored from `model_pt_path`, and
`initialize` succeeds. -/
theorem c5_class_resolution (env : Env) (h : BaseHandler) (ctx : Context) (module : PyModule)
    (hinit : h.initialized = false)
    (hfile : env.isfile (pathJoin ctx.system_properties.model_dir
      ctx.manifest.model.serializedFile) = true)
    (happi : ctx.system_properties.torch_api_type = "python")
    (hmf : ctx.manifest.model.modelFile ≠ "")
    (hdef : env.isfile (pathJoin ctx.system_properties.model_dir
      ctx.manifest.model.modelFile) = true)
    (himp : env.py_import ((ctx.manifest.model.modelFile.splitOn ".").headD "") = .ok module) :
    ((env.list_classes module).length ≠ 1 →
       (initializeHandler env h ctx).1 = .error .ambiguousModelDefinition ∧
       (initializeHandler env h ctx).2.initialized = false) ∧
    (∀ c sd m0 m1, env.list_classes module = [c] →
       env.torch_load (pathJoin ctx.system_properties.model_dir
         ctx.manifest.model.serializedFile) (some (mapLocationOf env)) = .ok sd →
       env.instantiate c = .ok m0 →
       env.load_state_dict m0 sd = .ok m1 →
       (initializeHandler env h ctx).1 = .ok () ∧
       (initializeHandler env h ctx).2.model =
         some (env.model_eval (env.model_to m1 (deviceOf env ctx.system_properties.gpu_id))) ∧
       (initializeHandler env h ctx).2.initialized = true) := by
  have himp2 : env.py_import ((ctx.manifest.model.modelFile.splitOn ".").head?.getD "") =
      .ok module := by
    simpa using himp
  constructor
  · intro hlen
    rcases hcls : env.list_classes module with _ | ⟨c, _ | ⟨c2, cs⟩⟩
    · simp [initializeHandler, load_pickled_model, hfile, happi, hmf, hdef, himp2, hcls, hinit]
    · rw [hcls] at hlen
      simp at hlen
    · simp [initializeHandler, load_pickled_model, hfile, happi, hmf, hdef, himp2, hcls, hinit]
  · intro c sd m0 m1 hcls hload hins hsd
    simp [initializeHandler, load_pickled_model, finishInit, wrapRaised,
      hfile, happi, hmf, hdef, himp2, hcls, hload, hins, hsd]

/-- C5 witness: the success branch of the theorem applied to a concrete
environment whose module defines exactly one class. -/
theorem c5_witness :
    (initializeHandler allFileEnv newHandler ctxNativeEager).1 = .ok () ∧
    (initializeHandler allFileEnv newHandler ctxNativeEager).2.model =
      some (allFileEnv.model_eval (allFileEnv.model_to 0 (deviceOf allFileEnv 0))) ∧
    (initializeHandler allFileEnv newHandler ctxNativeEager).2.initialized = true :=
  (c5_class_resolution allFileEnv newHandler ctxNativeEager 0 rfl rfl rfl (by decide)
    rfl rfl).2 0 0 0 0 rfl rfl rfl rfl

/-- C9: after a successful model load (python API, TorchScript path shown),
`initialize` unconditionally attempts to load `model_dir/index_to_name.json`;
when that file is absent, `initialize` still succeeds, the mapping is absent,
and no error is produced. -/
theorem c9_missing_mapping_nonfatal (env : Env) (h : BaseHandler) (ctx : Context) (m : Val)
    (happi : ctx.system_properties.torch_api_type = "python")
    (hmf : ctx.manifest.model.modelFile = "")
    (hfile : env.isfile (pathJoin ctx.system_properties.model_dir
      ctx.manifest.model.serializedFile) = true)
    (hjit : env.jit_load (pathJoin ctx.system_properties.model_dir
      ctx.manifest.model.serializedFile) (some (mapLocationOf env)) = .ok m)
    (hmap : env.isfile (pathJoin ctx.system_properties.model_dir "index_to_name.json") = false) :
    (initializeHandler env h ctx).1 = .ok () ∧
    (initializeHandler env h ctx).2.mapping = none ∧
    (initializeHandler env h ctx).2.initialized = true := by
  simp [initializeHandler, load_torchscript_model, wrapRaised, finishInit, load_label_mapping,
    happi, hmf, hfile, hjit, hmap]

/-- C9 witness: the theorem applied to an environment in which only
`/m/model.pt` exists, so the mapping file is absent. -/
theorem c9_witness :
    (initializeHandler ptOnlyEnv newHandler ctxNativeScript).1 = .ok () ∧
    (initializeHandler ptOnlyEnv newHandler ctxNativeScript).2.mapping = none ∧
    (initializeHandler ptOnlyEnv newHandler ctxNativeScript).2.initialized = true :=
  c9_missing_mapping_nonfatal ptOnlyEnv newHandler ctxNativeScript 0 rfl rfl (by decide)
    rfl (by decide)

end TorchServe
